import Mathlib

/-!
Verification of the front-end of the AI social-media-manager repository.

The JavaScript source is shallowly embedded: each React component's
fetch-building and state-updating logic becomes a pure Lean function over an
explicit state record, `Date.now()` becomes an explicit `nowMs : Nat`
parameter, JS `Map` objects become association lists with JS `Map` semantics,
and fallible fetches become an explicit outcome argument.
-/

namespace SMM

/-! ## JS `Map` model (string-keyed, `set` replaces, `delete` removes) -/

/-- Lookup of a key in a JS-`Map`-like association list (`Map.prototype.get`). -/
def mapGet {α : Type} (m : List (String × α)) (k : String) : Option α :=
  match m with
  | [] => none
  | (k', v) :: rest => if k' = k then some v else mapGet rest k

/-- Removal of a key (`Map.prototype.delete`). -/
def mapDelete {α : Type} (m : List (String × α)) (k : String) : List (String × α) :=
  match m with
  | [] => []
  | (k', v) :: rest => if k' = k then mapDelete rest k else (k', v) :: mapDelete rest k

/-- Insert-or-replace of a binding (`Map.prototype.set`). -/
def mapSet {α : Type} (m : List (String × α)) (k : String) (v : α) : List (String × α) :=
  (k, v) :: mapDelete m k

theorem mapGet_mapSet_self {α : Type} (m : List (String × α)) (k : String) (v : α) :
    mapGet (mapSet m k v) k = some v := by
  simp [mapSet, mapGet]

theorem mapGet_mapDelete_self {α : Type} (m : List (String × α)) (k : String) :
    mapGet (mapDelete m k) k = none := by
  induction m with
  | nil => rfl
  | cons p rest ih =>
    by_cases h : p.1 = k
    · simpa [mapDelete, h] using ih
    · simpa [mapDelete, mapGet, h] using ih

theorem mapGet_mapDelete_other {α : Type} (m : List (String × α)) (k k' : String)
    (h : k' ≠ k) : mapGet (mapDelete m k) k' = mapGet m k' := by
  induction m with
  | nil => rfl
  | cons p rest ih =>
    by_cases hp : p.1 = k
    · have hk' : ¬ p.1 = k' := fun hc => h (by rw [← hc, hp])
      simpa [mapDelete, hp, mapGet, hk', h, h.symm] using ih
    · by_cases hk' : p.1 = k'
      · simp [mapDelete, hp, mapGet, hk', h, h.symm]
      · simpa [mapDelete, hp, mapGet, hk', h, h.symm] using ih

theorem mapGet_mapSet_other {α : Type} (m : List (String × α)) (k k' : String) (v : α)
    (h : k' ≠ k) : mapGet (mapSet m k v) k' = mapGet m k' := by
  have hk : ¬ k = k' := fun hc => h hc.symm
  simp only [mapSet, mapGet, hk, if_false]
  exact mapGet_mapDelete_other m k k' h

/-! ## `CacheService` (src/unnamed/part_004)

The class holds two `Map`s, `cache` and `expiry`; `Date.now()` is passed
explicitly as `nowMs`.  `get` is state-mutating (it deletes expired entries),
so it returns the new service state alongside the value. -/

structure CacheService (V : Type) where
  cache : List (String × V)
  expiry : List (String × Nat)
  deriving Repr

/-- `new CacheService()` -/
def CacheService.empty (V : Type) : CacheService V := ⟨[], []⟩

/-- `defaultTTL = 10 * 60 * 1000` -/
def CacheService.defaultTTL : Nat := 10 * 60 * 1000

/-- `set(key, value, ttl)` -/
def CacheService.set {V : Type} (c : CacheService V) (key : String) (value : V)
    (nowMs ttl : Nat) : CacheService V :=
  { cache := mapSet c.cache key value
    expiry := mapSet c.expiry key (nowMs + ttl) }

/-- `get(key)`: returns the value (or `none` for JS `null`) and the state after
the call (expired entries are deleted).  The JS comparison
`Date.now() > expiryTime` is false when `expiryTime` is `undefined` (NaN
comparison), which the `none` branch mirrors. -/
def CacheService.get {V : Type} (c : CacheService V) (key : String) (nowMs : Nat) :
    Option V × CacheService V :=
  match mapGet c.cache key with
  | none => (none, c)
  | some v =>
    match mapGet c.expiry key with
    | some expiryTime =>
      if nowMs > expiryTime then
        (none, { cache := mapDelete c.cache key, expiry := mapDelete c.expiry key })
      else
        (some v, c)
    | none => (some v, c)

/-- `has(key)`: `this.get(key) !== null` -/
def CacheService.has {V : Type} (c : CacheService V) (key : String) (nowMs : Nat) : Bool :=
  ((c.get key nowMs).1).isSome

/-- `clear()` -/
def CacheService.clear {V : Type} (_ : CacheService V) : CacheService V :=
  CacheService.empty V

/-- `getOrSet(key, asyncFn, ttl)`.  The async function is embedded by its
result `fnResult : Except ε V`; the returned `Bool` records whether the
function was invoked.  On a cache hit the function is not invoked; on a miss
its result is cached (success) or the error is rethrown (failure). -/
def CacheService.getOrSet {V ε : Type} (c : CacheService V) (key : String)
    (nowMs ttl : Nat) (fnResult : Except ε V) :
    Except ε V × CacheService V × Bool :=
  match c.get key nowMs with
  | (some cached, c1) => (Except.ok cached, c1, false)
  | (none, c1) =>
    match fnResult with
    | Except.ok result => (Except.ok result, c1.set key result nowMs ttl, true)
    | Except.error e => (Except.error e, c1, true)

/-! ## HTTP request model

A fetch call is embedded as the request it constructs: URL, HTTP method, an
optional JSON body, and the optional `AbortSignal.timeout(ms)` passed in the
request options (`none` when the options carry no signal). -/

inductive HttpMethod where
  | get
  | post
  | put
  | delete
  deriving DecidableEq, Repr

inductive JsValue where
  | null
  | str (s : String)
  | num (n : Int)
  deriving DecidableEq, Repr

structure HttpRequest where
  url : String
  method : HttpMethod
  body : List (String × JsValue) := []
  timeoutSignalMs : Option Nat := none
  deriving DecidableEq, Repr

def API_BASE_URL : String := "http://localhost:8000"

/-! ## Scheduled posts and the Content Calendar
(src/frontend/src/components/ContentCalendar.js) -/

/-- A scheduled post as returned by the backend.  `scheduled_time` is the
epoch-millisecond value of the post's scheduled date. -/
structure SchedPost where
  id : String
  content : String
  platform : String
  scheduled_time : Nat
  status : String
  media_urls : List String
  deriving DecidableEq, Repr

/-- The `newPost` form state of `ContentCalendar`. -/
structure NewPostForm where
  content : String
  platform : String
  scheduledTime : String
  imageUrl : String
  deriving DecidableEq, Repr

/-- The reset value of the form (`content: '', platform: 'instagram', ...`). -/
def emptyNewPostForm : NewPostForm :=
  { content := "", platform := "instagram", scheduledTime := "", imageUrl := "" }

/-- `loadScheduledPosts`: `fetch('http://localhost:8000/api/scheduled-posts')`. -/
def loadScheduledPostsRequest : HttpRequest :=
  { url := API_BASE_URL ++ "/api/scheduled-posts", method := HttpMethod.get }

/-- `handleSchedulePost`: `fetch('http://localhost:8000/api/schedule-post',
{ method: 'POST', body: {content, platform, scheduled_time, image_url} })`.
The `new Date(...).toISOString()` conversion is kept as the form's string;
`newPost.imageUrl || null` sends `null` for the empty string. -/
def handleSchedulePostRequest (newPost : NewPostForm) : HttpRequest :=
  { url := API_BASE_URL ++ "/api/schedule-post"
    method := HttpMethod.post
    body := [("content", JsValue.str newPost.content),
             ("platform", JsValue.str newPost.platform),
             ("scheduled_time", JsValue.str newPost.scheduledTime),
             ("image_url", if newPost.imageUrl = "" then JsValue.null
                           else JsValue.str newPost.imageUrl)] }

/-- `handleUpdatePost`: `fetch(`.../api/scheduled-posts/SELECTED_ID`,
{ method: 'PUT', body: {id, content, platform, scheduled_time, image_url} })`. -/
def handleUpdatePostRequest (selectedPostId : String) (newPost : NewPostForm) : HttpRequest :=
  { url := API_BASE_URL ++ "/api/scheduled-posts/" ++ selectedPostId
    method := HttpMethod.put
    body := [("id", JsValue.str selectedPostId),
             ("content", JsValue.str newPost.content),
             ("platform", JsValue.str newPost.platform),
             ("scheduled_time", JsValue.str newPost.scheduledTime),
             ("image_url", if newPost.imageUrl = "" then JsValue.null
                           else JsValue.str newPost.imageUrl)] }

/-- `handleDeletePost`: `fetch(`.../api/scheduled-posts/POST_ID`,
{ method: 'DELETE' })`. -/
def handleDeletePostRequest (postId : String) : HttpRequest :=
  { url := API_BASE_URL ++ "/api/scheduled-posts/" ++ postId
    method := HttpMethod.delete }

/-- Component state of `ContentCalendar` relevant to the CRUD handlers. -/
structure ContentCalendarState where
  scheduledPosts : List SchedPost
  showScheduleModal : Bool
  selectedPost : Option SchedPost
  newPost : NewPostForm
  deriving DecidableEq, Repr

/-- `loadScheduledPosts` on an OK response: `setScheduledPosts(result.data || [])`. -/
def loadScheduledPostsOnOk (s : ContentCalendarState) (data : Option (List SchedPost)) :
    ContentCalendarState :=
  { s with scheduledPosts := data.getD [] }

/-- `handleSchedulePost` on an OK response: append `result.data`, reset the
form, close the modal. -/
def handleSchedulePostOnOk (s : ContentCalendarState) (created : SchedPost) :
    ContentCalendarState :=
  { s with scheduledPosts := s.scheduledPosts ++ [created]
           newPost := emptyNewPostForm
           showScheduleModal := false }

/-- `handleUpdatePost` on an OK response: replace the post whose id matches
`selectedPost.id`, close the modal, clear the selection, reset the form. -/
def handleUpdatePostOnOk (s : ContentCalendarState) (selectedPostId : String)
    (updated : SchedPost) : ContentCalendarState :=
  { s with scheduledPosts :=
             s.scheduledPosts.map (fun post => if post.id = selectedPostId then updated else post)
           showScheduleModal := false
           selectedPost := none
           newPost := emptyNewPostForm }

/-- `handleDeletePost` on an OK response: drop the post with the given id. -/
def handleDeletePostOnOk (s : ContentCalendarState) (postId : String) :
    ContentCalendarState :=
  { s with scheduledPosts := s.scheduledPosts.filter (fun post => post.id ≠ postId) }

/-! ## Agent chat (src/frontend/src/components/AgentChat.js) -/

inductive MessageKind where
  | user
  | bot
  deriving DecidableEq, Repr

/-- One `agent_responses` entry of a chat response. -/
structure AgentResponse where
  agent : String
  result : String
  deriving DecidableEq, Repr

/-- A chat message as stored in the `messages` state. -/
structure ChatMessage where
  id : Nat
  kind : MessageKind
  content : String
  timestampMs : Nat
  agent : Option String := none
  workflow_type : Option String := none
  agent_responses : List AgentResponse := []
  generated_content : Option String := none
  isError : Bool := false
  deriving DecidableEq, Repr

/-- Component state of `AgentChat`. -/
structure AgentChatState where
  messages : List ChatMessage
  inputMessage : String
  isLoading : Bool
  selectedAgent : String
  currentWorkflow : Option String
  agentQueue : List String
  completedAgents : List String
  deriving DecidableEq, Repr

/-- JS `String.prototype.trim`: strip leading and trailing whitespace. -/
def jsTrim (s : String) : String :=
  String.mk (((s.data.dropWhile Char.isWhitespace).reverse.dropWhile
    Char.isWhitespace).reverse)

/-- The session id sent with a chat request: `` `web-${Date.now()}` ``. -/
def chatSessionId (nowMs : Nat) : String := "web-" ++ Nat.repr nowMs

/-- Body of the `/chat` POST: message, session id and, unless the selected
agent is `'all'`, a `preferred_agent` entry in `context_data`. -/
structure ChatRequestBody where
  message : String
  session_id : String
  context_data : List (String × String)
  deriving DecidableEq, Repr

def buildChatBody (inputMessage selectedAgent : String) (nowMs : Nat) : ChatRequestBody :=
  { message := inputMessage
    session_id := chatSessionId nowMs
    context_data := if selectedAgent ≠ "all" then [("preferred_agent", selectedAgent)] else [] }

/-- The request line of `sendMessage`: `fetch(`${API_BASE_URL}/chat`,
{ method: 'POST', ... })` with no abort signal in the options. -/
def chatHttpRequest : HttpRequest :=
  { url := API_BASE_URL ++ "/chat", method := HttpMethod.post }

/-- `sendMessage` up to the `fetch`: the guard
`if (!inputMessage.trim() || isLoading) return;` yields no state change and no
request; otherwise the user message is appended, the input cleared, loading
set, the workflow state reset, and the `/chat` POST issued. -/
def sendMessage (s : AgentChatState) (nowMs : Nat) :
    AgentChatState × Option (HttpRequest × ChatRequestBody) :=
  if jsTrim s.inputMessage = "" ∨ s.isLoading then (s, none)
  else
    ({ s with
        messages := s.messages ++
          [{ id := nowMs
             kind := MessageKind.user
             content := s.inputMessage
             timestampMs := nowMs
             agent := some s.selectedAgent }]
        inputMessage := ""
        isLoading := true
        currentWorkflow := none
        agentQueue := []
        completedAgents := [] },
     some (chatHttpRequest, buildChatBody s.inputMessage s.selectedAgent nowMs))

/-- A parsed `/chat` response body. -/
structure ChatResponse where
  workflow_type : Option String
  agent_queue : Option (List String)
  agent_responses : Option (List AgentResponse)
  final_response : String
  generated_content : Option String
  deriving DecidableEq, Repr

/-- The success path of `sendMessage` after `response.json()`:
`setCurrentWorkflow`, `setAgentQueue(data.agent_queue || [])`,
`setCompletedAgents(data.agent_responses?.map(r => r.agent) || [])`, append the
bot message, and (`finally`) clear `isLoading`. -/
def applyChatResponse (s : AgentChatState) (data : ChatResponse) (nowMs : Nat) :
    AgentChatState :=
  { s with
      currentWorkflow := data.workflow_type
      agentQueue := data.agent_queue.getD []
      completedAgents := (data.agent_responses.getD []).map (fun r => r.agent)
      messages := s.messages ++
        [{ id := nowMs + 1
           kind := MessageKind.bot
           content := data.final_response
           timestampMs := nowMs
           workflow_type := data.workflow_type
           agent_responses := data.agent_responses.getD []
           generated_content := data.generated_content }]
      isLoading := false }

/-- The visual state of one queue entry in the `WorkflowProgress` indicator. -/
inductive AgentMark where
  | completed
  | current
  | pending
  deriving DecidableEq, Repr

/-- Mark of the queue entry `agent` at position `index`:
`isCompleted = completed.includes(agent)`,
`isCurrent = !isCompleted && index === completed.length`. -/
def agentMark (completed : List String) (index : Nat) (agent : String) : AgentMark :=
  if completed.contains agent then AgentMark.completed
  else if index = completed.length then AgentMark.current
  else AgentMark.pending

/-- Marks rendered by `WorkflowProgress` for `queue.map((agent, index) => ...)`. -/
def workflowMarks (queue completed : List String) : List AgentMark :=
  queue.enum.map (fun p => agentMark completed p.1 p.2)

/-- Index of the first queue entry not in the completed set (the agent the
spec claims is marked as current). -/
def firstUncompletedIdx (queue completed : List String) : Option Nat :=
  (queue.enum.find? (fun p => !completed.contains p.2)).map (fun p => p.1)

/-- Spec-side formalisation of the claim on the current marker: the entry
marked `current` is exactly the first queue entry not in the completed set. -/
def currentIsFirstUncompleted (queue completed : List String) : Prop :=
  ∀ i ∈ List.range queue.length,
    ((workflowMarks queue completed).getD i AgentMark.pending = AgentMark.current
      ↔ firstUncompletedIdx queue completed = some i)

instance (queue completed : List String) : Decidable (currentIsFirstUncompleted queue completed) := by
  unfold currentIsFirstUncompleted
  infer_instance

/-! ## Dashboard (src/unnamed/part_002) -/

/-- JS `String.prototype.includes` on the error message. -/
def jsIncludes (s pattern : String) : Bool :=
  decide (pattern.toList <:+: s.toList)

/-- The parsed `/dashboard/data` JSON, reduced to the `success` flag the
control flow inspects (`if (!result.success) throw ...`). -/
structure DashboardResult where
  success : Bool
  deriving DecidableEq, Repr

/-- The `catch` block of `fetchInstagramData`: chooses the user-facing error
string from `err.name === 'TimeoutError' || err.message.includes('timeout')`,
then `err.message.includes('Failed to fetch')`, else a generic message. -/
def catchErrorMessage (isTimeoutName : Bool) (message : String) : String :=
  if isTimeoutName || jsIncludes message "timeout" then
    "Request timed out after 25 seconds. The Instagram API is slow. Please try again."
  else if jsIncludes message "Failed to fetch" then
    "Network error. Please check your connection and try again."
  else
    "Failed to load data: " ++ message

/-- Outcome of the awaited `/dashboard/data` fetch (used on a cache miss). -/
inductive DashboardFetchOutcome where
  | ok (result : DashboardResult)
  | httpError (status : Nat) (statusText : String)
  | timeoutError
  | networkError
  deriving DecidableEq, Repr

/-- A dashboard fetch outcome that ends in the `catch` block: a non-OK status,
a response with `success: false`, a timeout, or a network error. -/
def DashboardFetchOutcome.isFailure : DashboardFetchOutcome → Bool
  | DashboardFetchOutcome.ok r => !r.success
  | _ => true

/-- Component state of the dashboard relevant to loading and error handling. -/
structure DashboardState where
  loading : Bool
  loadingProgress : Nat
  error : Option String
  dataLoaded : Bool
  deriving DecidableEq, Repr

/-- `fetchInstagramData`: consult the cache under key `'dashboard_data'`; on a
miss run the fetch and either cache-and-process the result or fall into the
`catch` block; the `finally` block always clears `loading` and resets
`loadingProgress`. -/
def fetchInstagramData (s : DashboardState) (cache : CacheService DashboardResult)
    (nowMs : Nat) (outcome : DashboardFetchOutcome) :
    DashboardState × CacheService DashboardResult :=
  match cache.get "dashboard_data" nowMs with
  | (some _, cache1) =>
    ({ s with dataLoaded := true, loading := false, loadingProgress := 0 }, cache1)
  | (none, cache1) =>
    match outcome with
    | DashboardFetchOutcome.ok r =>
      if r.success then
        ({ s with dataLoaded := true, loading := false, loadingProgress := 0 },
         cache1.set "dashboard_data" r nowMs (3 * 60 * 1000))
      else
        ({ s with error := some (catchErrorMessage false "Dashboard data fetch failed")
                  loading := false, loadingProgress := 0 }, cache1)
    | DashboardFetchOutcome.httpError status statusText =>
      ({ s with error := some (catchErrorMessage false
                  ("HTTP " ++ Nat.repr status ++ ": " ++ statusText))
                loading := false, loadingProgress := 0 }, cache1)
    | DashboardFetchOutcome.timeoutError =>
      ({ s with error := some (catchErrorMessage true "The operation was aborted due to timeout")
                loading := false, loadingProgress := 0 }, cache1)
    | DashboardFetchOutcome.networkError =>
      ({ s with error := some (catchErrorMessage false "Failed to fetch")
                loading := false, loadingProgress := 0 }, cache1)

inductive DashboardAction where
  | fetchInstagramDataAction
  deriving DecidableEq, Repr

/-- What the dashboard component renders: on a non-null error string, the
error view whose Retry button's `onClick` is `fetchInstagramData`. -/
inductive DashboardView where
  | errorView (message : String) (retry : DashboardAction)
  | mainView
  deriving DecidableEq, Repr

def renderDashboard (s : DashboardState) : DashboardView :=
  match s.error with
  | some e => DashboardView.errorView e DashboardAction.fetchInstagramDataAction
  | none => DashboardView.mainView

/-! ### Sentiment processing inside `processDashboardData` -/

/-- The `sentiment.data` record of the `/dashboard/data` response. -/
structure SentimentApiData where
  positive_percentage : Option Int
  neutral_percentage : Option Int
  negative_percentage : Option Int
  total_comments : Int
  deriving DecidableEq, Repr

structure SentimentSlice where
  name : String
  value : Int
  color : String
  deriving DecidableEq, Repr

/-- The sentiment branch of `processDashboardData`: clamp each percentage with
`Math.max(x || 0, 0)`, replace the triple by `0/100/0` when there are no
comments or the clamped values sum to zero, and build the chart slices. -/
def processSentiment (d : SentimentApiData) : List SentimentSlice :=
  let positive := max (d.positive_percentage.getD 0) 0
  let neutral := max (d.neutral_percentage.getD 0) 0
  let negative := max (d.negative_percentage.getD 0) 0
  let values :=
    if d.total_comments = 0 ∨ positive + neutral + negative = 0 then
      ((0 : Int), (100 : Int), (0 : Int))
    else
      (positive, neutral, negative)
  [{ name := "Positive", value := values.1, color := "#10B981" },
   { name := "Neutral", value := values.2.1, color := "#6B7280" },
   { name := "Negative", value := values.2.2, color := "#EF4444" }]

/-! ### `normalizePerformanceData` (metric fields)

Models the numeric normalisation of one array item (the
`Number(item.engagement ?? item.total_engagement ?? ... ?? 0) || 0` lines);
the weekday-name resolution of the same function goes through `Date`
formatting and is not embedded. -/

structure PerformanceApiItem where
  engagement : Option Int
  total_engagement : Option Int
  engagements : Option Int
  reach : Option Int
  total_reach : Option Int
  reach_count : Option Int
  impressions : Option Int
  total_impressions : Option Int
  views : Option Int
  total_views : Option Int
  video_views : Option Int
  view_count : Option Int
  deriving DecidableEq, Repr

structure ChartMetrics where
  engagement : Int
  reach : Int
  impressions : Int
  views : Int
  deriving DecidableEq, Repr

/-- JS `a ?? b ?? c ?? 0` over optional numeric fields. -/
def jsCoalesce (a b c : Option Int) : Int :=
  ((a.orElse (fun _ => b)).orElse (fun _ => c)).getD 0

def normalizePerformanceItemMetrics (item : PerformanceApiItem) : ChartMetrics :=
  { engagement := jsCoalesce item.engagement item.total_engagement item.engagements
    reach := jsCoalesce item.reach item.total_reach item.reach_count
    impressions := jsCoalesce item.impressions item.total_impressions none
    views := ((((item.views.orElse (fun _ => item.total_views)).orElse
      (fun _ => item.video_views)).orElse (fun _ => item.view_count)).getD 0) }

/-! ### `fetchNextScheduledPost` -/

/-- The "Next Scheduled" card built from the selected post.  `scheduledFor` is
rendered through `toLocaleString`; the card keeps the underlying timestamp.
`next.media_urls?.[0] || null` maps a missing or empty first URL to `null`. -/
structure NextPostCard where
  platform : String
  content : String
  scheduledForMs : Nat
  status : String
  image : Option String
  deriving DecidableEq, Repr

def mkNextPost (next : SchedPost) : NextPostCard :=
  { platform := next.platform.capitalize
    content := next.content
    scheduledForMs := next.scheduled_time
    status := "scheduled"
    image := match next.media_urls.head? with
             | some u => if u = "" then none else some u
             | none => none }

/-- The comparator `(a, b) => new Date(a.scheduled_time) - new Date(b.scheduled_time)`
as the ≤ test a stable sort consumes. -/
def schedTimeLe (a b : SchedPost) : Bool :=
  decide (a.scheduled_time ≤ b.scheduled_time)

/-- `filter(status === 'scheduled')`, `filter(new Date(scheduled_time) > now)`,
`.sort((a, b) => new Date(a.scheduled_time) - new Date(b.scheduled_time))`. -/
def futureScheduledSorted (scheduledPosts : List SchedPost) (nowMs : Nat) : List SchedPost :=
  ((scheduledPosts.filter (fun post => post.status = "scheduled")).filter
      (fun post => nowMs < post.scheduled_time)).mergeSort schedTimeLe

/-- Outcome of the `/api/scheduled-posts` fetch in `fetchNextScheduledPost`:
an OK response with `result.data` (possibly absent), a non-OK HTTP status
(which the code silently ignores), or a thrown error (caught). -/
inductive NextFetchOutcome where
  | ok (data : Option (List SchedPost))
  | httpNotOk
  | thrown
  deriving DecidableEq, Repr

/-- `fetchNextScheduledPost`, as a function of the previous `nextPost` state:
on an OK response pick the head of the sorted future scheduled posts (or
`null`); a non-OK response leaves the state untouched; a thrown error sets it
to `null`. -/
def fetchNextScheduledPost (prev : Option NextPostCard) (nowMs : Nat)
    (outcome : NextFetchOutcome) : Option NextPostCard :=
  match outcome with
  | NextFetchOutcome.thrown => none
  | NextFetchOutcome.httpNotOk => prev
  | NextFetchOutcome.ok data =>
    match futureScheduledSorted (data.getD []) nowMs with
    | [] => none
    | next :: _ => some (mkNextPost next)

/-! ### The fetch requests the modeled components construct -/

/-- `fetch('http://localhost:8000/dashboard/data', { method: 'GET', ...,
signal: AbortSignal.timeout(25000) })`. -/
def fetchDashboardDataRequest : HttpRequest :=
  { url := API_BASE_URL ++ "/dashboard/data", method := HttpMethod.get
    timeoutSignalMs := some 25000 }

def fetchNextScheduledPostRequest : HttpRequest :=
  { url := API_BASE_URL ++ "/api/scheduled-posts", method := HttpMethod.get }

def fetchContentStrategyRequest : HttpRequest :=
  { url := API_BASE_URL ++ "/api/content-strategy", method := HttpMethod.get }

def fetchWeeklyInsightsRequest : HttpRequest :=
  { url := API_BASE_URL ++ "/instagram/insights/performance", method := HttpMethod.get }

def fetchPostInsightsRequest (postId : String) : HttpRequest :=
  { url := API_BASE_URL ++ "/instagram/insights/media/" ++ postId, method := HttpMethod.get }

/-- All fetch requests constructed by the embedded components, for the given
parameters of the parametrised ones. -/
def frontendRequests (form : NewPostForm) (updateId deleteId insightsPostId : String) :
    List HttpRequest :=
  [loadScheduledPostsRequest,
   handleSchedulePostRequest form,
   handleUpdatePostRequest updateId form,
   handleDeletePostRequest deleteId,
   chatHttpRequest,
   fetchDashboardDataRequest,
   fetchNextScheduledPostRequest,
   fetchContentStrategyRequest,
   fetchWeeklyInsightsRequest,
   fetchPostInsightsRequest insightsPostId]

/-! ## Decimal rendering

`chatSessionId` interpolates `Date.now()` into a string, so reasoning about
session-id reuse needs injectivity of the decimal rendering `Nat.repr`. -/

/-- Reference decimal rendering (most significant digit first). -/
def decDigits (n : Nat) : List Char :=
  if n < 10 then [Nat.digitChar n]
  else decDigits (n / 10) ++ [Nat.digitChar (n % 10)]
decreasing_by
  exact Nat.div_lt_self (by omega) (by omega)

theorem decDigits_ne_nil (n : Nat) : decDigits n ≠ [] := by
  rw [decDigits]
  by_cases h : n < 10 <;> simp [h]

theorem decDigits_getLast? (n : Nat) :
    (decDigits n).getLast? = some (Nat.digitChar (n % 10)) := by
  rw [decDigits]
  by_cases h : n < 10
  · simp [h, Nat.mod_eq_of_lt h]
  · simp [h, List.getLast?_concat]

theorem decDigits_dropLast (n : Nat) :
    (decDigits n).dropLast = if n < 10 then [] else decDigits (n / 10) := by
  rw [decDigits]
  by_cases h : n < 10
  · simp [h]
  · simp [h, List.dropLast_concat]

theorem digitChar_inj_lt : ∀ a < 10, ∀ b < 10,
    Nat.digitChar a = Nat.digitChar b → a = b := by decide

theorem decDigits_injective : ∀ m n : Nat, decDigits m = decDigits n → m = n := by
  intro m
  induction m using Nat.strong_induction_on with
  | _ m ih =>
    intro n h
    have hlast : Nat.digitChar (m % 10) = Nat.digitChar (n % 10) := by
      have := decDigits_getLast? m
      rw [h, decDigits_getLast? n] at this
      exact (Option.some.inj this).symm
    have hmod : m % 10 = n % 10 :=
      digitChar_inj_lt (m % 10) (Nat.mod_lt m (by omega)) (n % 10) (Nat.mod_lt n (by omega)) hlast
    have hdrop := congrArg List.dropLast h
    rw [decDigits_dropLast, decDigits_dropLast] at hdrop
    by_cases hm : m < 10
    · by_cases hn : n < 10
      · omega
      · rw [if_pos hm, if_neg hn] at hdrop
        exact absurd hdrop.symm (decDigits_ne_nil (n / 10))
    · by_cases hn : n < 10
      · rw [if_neg hm, if_pos hn] at hdrop
        exact absurd hdrop (decDigits_ne_nil (m / 10))
      · rw [if_neg hm, if_neg hn] at hdrop
        have hdiv : m / 10 = n / 10 :=
          ih (m / 10) (Nat.div_lt_self (by omega) (by omega)) (n / 10) hdrop
        omega

theorem toDigitsCore_eq_decDigits :
    ∀ (fuel n : Nat) (ds : List Char), n < fuel →
      Nat.toDigitsCore 10 fuel n ds = decDigits n ++ ds := by
  intro fuel
  induction fuel with
  | zero => intro n ds h; omega
  | succ f ih =>
    intro n ds h
    rw [Nat.toDigitsCore]
    by_cases h10 : n / 10 = 0
    · have hn : n < 10 := by omega
      simp only [h10, if_pos rfl]
      rw [decDigits, if_pos hn, Nat.mod_eq_of_lt hn]
      rfl
    · have hge : ¬ n < 10 := by
        intro hc
        exact h10 (Nat.div_eq_of_lt hc)
      have hlt : n / 10 < n := Nat.div_lt_self (by omega) (by omega)
      have hdec : decDigits n = decDigits (n / 10) ++ [Nat.digitChar (n % 10)] := by
        conv_lhs => rw [decDigits]
        rw [if_neg hge]
      simp only [h10, if_false]
      rw [ih (n / 10) (Nat.digitChar (n % 10) :: ds) (by omega), hdec, List.append_assoc]
      rfl

theorem natRepr_injective : Function.Injective Nat.repr := by
  intro m n h
  apply decDigits_injective
  have hm : Nat.toDigits 10 m = decDigits m := by
    rw [Nat.toDigits, toDigitsCore_eq_decDigits (m + 1) m [] (Nat.lt_succ_self m),
      List.append_nil]
  have hn : Nat.toDigits 10 n = decDigits n := by
    rw [Nat.toDigits, toDigitsCore_eq_decDigits (n + 1) n [] (Nat.lt_succ_self n),
      List.append_nil]
  have : (Nat.toDigits 10 m).asString = (Nat.toDigits 10 n).asString := h
  rw [hm, hn] at this
  simpa [List.asString] using congrArg String.data this

theorem chatSessionId_injective : Function.Injective chatSessionId := by
  intro t₁ t₂ h
  apply natRepr_injective
  have hdata : ("web-" ++ Nat.repr t₁).data = ("web-" ++ Nat.repr t₂).data :=
    congrArg String.data h
  simp only [String.data_append] at hdata
  exact String.ext (List.append_cancel_left hdata)

/-! ## Claim theorems -/

/-- C1 (counterexample): the claim says every scheduled-post operation from the
Content Calendar goes to the `/api/scheduled-posts` endpoint; but the create
operation POSTs to `/api/schedule-post`, a different endpoint. -/
theorem schedulePost_create_endpoint_differs :
    (handleSchedulePostRequest emptyNewPostForm).method = HttpMethod.post ∧
    (handleSchedulePostRequest emptyNewPostForm).url ≠ API_BASE_URL ++ "/api/scheduled-posts" := by
  constructor
  · rfl
  · decide

/-- C1 (amended): the Content Calendar lists scheduled posts with a GET to
`/api/scheduled-posts`, creates one with a POST to `/api/schedule-post`, and
updates respectively removes one with a PUT respectively DELETE to
`/api/scheduled-posts/{id}`. -/
theorem calendar_crud_requests (form : NewPostForm) (updateId deleteId : String) :
    (loadScheduledPostsRequest.method = HttpMethod.get ∧
      loadScheduledPostsRequest.url = API_BASE_URL ++ "/api/scheduled-posts") ∧
    ((handleSchedulePostRequest form).method = HttpMethod.post ∧
      (handleSchedulePostRequest form).url = API_BASE_URL ++ "/api/schedule-post") ∧
    ((handleUpdatePostRequest updateId form).method = HttpMethod.put ∧
      (handleUpdatePostRequest updateId form).url =
        API_BASE_URL ++ "/api/scheduled-posts/" ++ updateId) ∧
    ((handleDeletePostRequest deleteId).method = HttpMethod.delete ∧
      (handleDeletePostRequest deleteId).url =
        API_BASE_URL ++ "/api/scheduled-posts/" ++ deleteId) :=
  ⟨⟨rfl, rfl⟩, ⟨rfl, rfl⟩, ⟨rfl, rfl⟩, ⟨rfl, rfl⟩⟩

/-- A chat component state ready to send (non-blank input, not loading). -/
def readyChatState : AgentChatState :=
  { messages := []
    inputMessage := "hi"
    isLoading := false
    selectedAgent := "all"
    currentWorkflow := none
    agentQueue := []
    completedAgents := [] }

/-- C3 (counterexample): the claim says the same session id is reused across
successive chat turns; but two sends of the same state at successive
timestamps carry different session ids. -/
theorem session_id_not_reused :
    ((sendMessage readyChatState 1000).2.map (fun r => r.2.session_id)) ≠
    ((sendMessage readyChatState 1001).2.map (fun r => r.2.session_id)) := by
  decide

/-- C3 (amended): the session id sent with a chat request is a client-generated
string `web-<timestamp>` computed freshly at each send (it is not persisted
anywhere), so sends at different timestamps carry different session ids. -/
theorem session_id_fresh_per_send (s : AgentChatState) (t₁ t₂ : Nat)
    (hmsg : jsTrim s.inputMessage ≠ "") (hload : s.isLoading = false) (hne : t₁ ≠ t₂) :
    (∃ req₁, (sendMessage s t₁).2 = some req₁ ∧ req₁.2.session_id = chatSessionId t₁) ∧
    (∃ req₂, (sendMessage s t₂).2 = some req₂ ∧ req₂.2.session_id = chatSessionId t₂) ∧
    chatSessionId t₁ ≠ chatSessionId t₂ := by
  refine ⟨⟨(chatHttpRequest, buildChatBody s.inputMessage s.selectedAgent t₁), ?_, rfl⟩,
          ⟨(chatHttpRequest, buildChatBody s.inputMessage s.selectedAgent t₂), ?_, rfl⟩,
          fun h => hne (chatSessionId_injective h)⟩
  · simp [sendMessage, hmsg, hload]
  · simp [sendMessage, hmsg, hload]

theorem session_id_fresh_per_send_witness :
    (∃ req₁, (sendMessage readyChatState 1000).2 = some req₁ ∧
      req₁.2.session_id = chatSessionId 1000) ∧
    (∃ req₂, (sendMessage readyChatState 1001).2 = some req₂ ∧
      req₂.2.session_id = chatSessionId 1001) ∧
    chatSessionId 1000 ≠ chatSessionId 1001 :=
  session_id_fresh_per_send readyChatState 1000 1001 (by decide) rfl (by omega)

/-- C5: while a previous send is still loading, invoking `sendMessage` changes
no component state and issues no request to `/chat`. -/
theorem sendMessage_noop_when_loading (s : AgentChatState) (nowMs : Nat)
    (h : s.isLoading = true) : sendMessage s nowMs = (s, none) := by
  simp [sendMessage, h]

theorem sendMessage_noop_when_loading_witness :
    sendMessage { readyChatState with isLoading := true } 42 =
      ({ readyChatState with isLoading := true }, none) :=
  sendMessage_noop_when_loading { readyChatState with isLoading := true } 42 rfl

/-- C6: `CacheService` has fixed-expiry TTL semantics: after `set`, `get`
returns the value while the time has not passed `set time + ttl`; once past it,
`get` deletes both entries and returns null; `get` misses on absent keys; and
`has` holds exactly when `get` is non-null. -/
theorem cacheService_ttl_semantics {V : Type} (c : CacheService V) (key : String)
    (v : V) (nowMs ttl t : Nat) :
    (t ≤ nowMs + ttl → ((c.set key v nowMs ttl).get key t).1 = some v) ∧
    (nowMs + ttl < t →
      ((c.set key v nowMs ttl).get key t).1 = none ∧
      mapGet ((c.set key v nowMs ttl).get key t).2.cache key = none ∧
      mapGet ((c.set key v nowMs ttl).get key t).2.expiry key = none) ∧
    (mapGet c.cache key = none → (c.get key t).1 = none) ∧
    (c.has key t = true ↔ (c.get key t).1 ≠ none) := by
  refine ⟨fun h => ?_, fun h => ?_, fun h => ?_, ?_⟩
  · have hnot : ¬ t > nowMs + ttl := by omega
    simp [CacheService.set, CacheService.get, mapGet_mapSet_self, hnot]
  · have hgt : t > nowMs + ttl := h
    simp [CacheService.set, CacheService.get, mapGet_mapSet_self, hgt,
      mapGet_mapDelete_self]
  · simp [CacheService.get, h]
  · simp [CacheService.has, Option.isSome_iff_ne_none]

theorem cacheService_ttl_semantics_witness :
    ((((CacheService.empty Nat).set "k" 7 0 5).get "k" 3).1 = some 7) ∧
    ((((CacheService.empty Nat).set "k" 7 0 5).get "k" 9).1 = none ∧
      mapGet ((((CacheService.empty Nat).set "k" 7 0 5).get "k" 9)).2.cache "k" = none ∧
      mapGet ((((CacheService.empty Nat).set "k" 7 0 5).get "k" 9)).2.expiry "k" = none) ∧
    (((CacheService.empty Nat).get "k" 3).1 = none) ∧
    ((CacheService.empty Nat).has "k" 3 = true ↔
      ((CacheService.empty Nat).get "k" 3).1 ≠ none) :=
  ⟨(cacheService_ttl_semantics (CacheService.empty Nat) "k" 7 0 5 3).1 (by decide),
   (cacheService_ttl_semantics (CacheService.empty Nat) "k" 7 0 5 9).2.1 (by decide),
   (cacheService_ttl_semantics (CacheService.empty Nat) "k" 7 0 5 3).2.2.1 rfl,
   (cacheService_ttl_semantics (CacheService.empty Nat) "k" 7 0 5 3).2.2.2⟩

theorem workflowMarks_getD (queue completed : List String) (i : Nat)
    (hi : i < queue.length) :
    (workflowMarks queue completed).getD i AgentMark.pending =
      agentMark completed i (queue.getD i "") := by
  unfold workflowMarks
  simp [List.getD_eq_getElem?_getD, List.getElem?_enum, List.getElem?_eq_getElem hi]

/-- A `/chat` response whose `agent_responses` is not a prefix of the queue. -/
def exChatResponse : ChatResponse :=
  { workflow_type := some "sequential"
    agent_queue := some ["a", "b"]
    agent_responses := some [{ agent := "b", result := "done" }]
    final_response := "ok"
    generated_content := none }

/-- C2 (counterexample): after applying a response with queue `[a, b]` and
completed agents `[b]`, the first queue entry not in the completed set (`a`)
is not the one marked current (no entry is), refuting the claim that the
current marker is the first un-completed queue entry. -/
theorem workflow_current_not_first_uncompleted :
    ¬ currentIsFirstUncompleted
        (applyChatResponse readyChatState exChatResponse 0).agentQueue
        (applyChatResponse readyChatState exChatResponse 0).completedAgents := by
  decide

/-- C2 (amended): `sendMessage` POSTs a JSON body with the message text and
session id to `/chat`; on success the queue is set to `agent_queue`, the
completed set to the agents of `agent_responses`; and the entry marked current
is the queue entry at index `completed.length` provided it is not itself
completed (rather than the first entry not in the completed set). -/
theorem chat_post_and_workflow_progress (s : AgentChatState) (t : Nat)
    (d : ChatResponse) (queue completed : List String) (i : Nat)
    (hmsg : jsTrim s.inputMessage ≠ "") (hload : s.isLoading = false)
    (hi : i < queue.length) :
    ((sendMessage s t).2 =
        some (chatHttpRequest, buildChatBody s.inputMessage s.selectedAgent t) ∧
      chatHttpRequest.url = API_BASE_URL ++ "/chat" ∧
      chatHttpRequest.method = HttpMethod.post ∧
      (buildChatBody s.inputMessage s.selectedAgent t).message = s.inputMessage ∧
      (buildChatBody s.inputMessage s.selectedAgent t).session_id = chatSessionId t) ∧
    ((applyChatResponse s d t).agentQueue = d.agent_queue.getD [] ∧
      (applyChatResponse s d t).completedAgents =
        (d.agent_responses.getD []).map (fun r => r.agent)) ∧
    ((workflowMarks queue completed).getD i AgentMark.pending = AgentMark.current ↔
      (completed.contains (queue.getD i "") = false ∧ i = completed.length)) := by
  refine ⟨⟨?_, rfl, rfl, rfl, rfl⟩, ⟨rfl, rfl⟩, ?_⟩
  · simp [sendMessage, hmsg, hload]
  · rw [workflowMarks_getD queue completed i hi]
    generalize queue.getD i "" = a
    unfold agentMark
    by_cases hc : completed.contains a
    · have hm : a ∈ completed := by simpa using hc
      simp [hc, hm]
    · have hm : a ∉ completed := by simpa using hc
      by_cases hlen : i = completed.length
      · simp [hc, hm, hlen]
      · simp [hc, hm, hlen]

theorem chat_post_and_workflow_progress_witness :
    ((sendMessage readyChatState 7).2 =
        some (chatHttpRequest, buildChatBody "hi" "all" 7) ∧
      chatHttpRequest.url = API_BASE_URL ++ "/chat" ∧
      chatHttpRequest.method = HttpMethod.post ∧
      (buildChatBody "hi" "all" 7).message = "hi" ∧
      (buildChatBody "hi" "all" 7).session_id = chatSessionId 7) ∧
    ((applyChatResponse readyChatState exChatResponse 7).agentQueue =
        exChatResponse.agent_queue.getD [] ∧
      (applyChatResponse readyChatState exChatResponse 7).completedAgents =
        (exChatResponse.agent_responses.getD []).map (fun r => r.agent)) ∧
    ((workflowMarks ["a", "b"] []).getD 0 AgentMark.pending = AgentMark.current ↔
      (List.contains [] (List.getD ["a", "b"] 0 "") = false ∧ 0 = List.length ([] : List String))) :=
  chat_post_and_workflow_progress readyChatState 7 exChatResponse ["a", "b"] [] 0
    (by decide) rfl (by decide)

/-- Concrete sentiment payload with a negative `negative_percentage`. -/
def exSentiment : SentimentApiData :=
  { positive_percentage := some 80
    neutral_percentage := some 25
    negative_percentage := some (-5)
    total_comments := 10 }

/-- C4 (counterexample): the claim says chart values equal the values in the
API response; but a `-5` negative percentage is clamped to `0` before reaching
the pie chart. -/
theorem sentiment_values_not_passthrough :
    (processSentiment exSentiment).map (fun slice => slice.value) ≠
      [exSentiment.positive_percentage.getD 0, exSentiment.neutral_percentage.getD 0,
       exSentiment.negative_percentage.getD 0] := by
  decide

/-- Sentiment payload with no comments at all. -/
def exSentimentZero : SentimentApiData :=
  { positive_percentage := some 80
    neutral_percentage := some 25
    negative_percentage := some (-5)
    total_comments := 0 }

/-- Performance item carrying its engagement only under `total_engagement`. -/
def exPerfItem : PerformanceApiItem :=
  { engagement := none, total_engagement := some 5, engagements := none
    reach := none, total_reach := none, reach_count := none
    impressions := none, total_impressions := none
    views := none, total_views := none, video_views := none, view_count := none }

/-- C4 (amended): values are normalized on the way to the charts rather than
passed through: sentiment percentages are clamped to be non-negative and
replaced by `0/100/0` when there are no comments, and performance metrics are
renamed and defaulted (`total_engagement` feeds the `engagement` prop). -/
theorem chart_values_normalized (d : SentimentApiData) (item : PerformanceApiItem)
    (x : Int) :
    (∀ slice ∈ processSentiment d, 0 ≤ slice.value) ∧
    (d.total_comments = 0 →
      (processSentiment d).map (fun slice => slice.value) = [0, 100, 0]) ∧
    (item.engagement = none → item.total_engagement = some x →
      (normalizePerformanceItemMetrics item).engagement = x) := by
  refine ⟨?_, fun h => ?_, fun h1 h2 => ?_⟩
  · intro slice hs
    simp only [processSentiment] at hs
    by_cases hcond : d.total_comments = 0 ∨
        max (d.positive_percentage.getD 0) 0 + max (d.neutral_percentage.getD 0) 0 +
          max (d.negative_percentage.getD 0) 0 = 0
    · simp only [if_pos hcond, List.mem_cons, List.not_mem_nil, or_false] at hs
      rcases hs with h | h | h <;> subst h <;> norm_num
    · simp only [if_neg hcond, List.mem_cons, List.not_mem_nil, or_false] at hs
      rcases hs with h | h | h <;> subst h <;> exact le_max_right _ _
  · simp [processSentiment, h]
  · simp [normalizePerformanceItemMetrics, jsCoalesce, h1, h2, Option.orElse]

theorem chart_values_normalized_witness :
    (0 ≤ (({ name := "Positive", value := 0, color := "#10B981" } : SentimentSlice)).value) ∧
    ((processSentiment exSentimentZero).map (fun slice => slice.value) = [0, 100, 0]) ∧
    ((normalizePerformanceItemMetrics exPerfItem).engagement = 5) :=
  ⟨(chart_values_normalized exSentimentZero exPerfItem 5).1
      { name := "Positive", value := 0, color := "#10B981" } (by decide),
   (chart_values_normalized exSentimentZero exPerfItem 5).2.1 rfl,
   (chart_values_normalized exSentimentZero exPerfItem 5).2.2 rfl rfl⟩

/-- C7: on a cache miss, every failing dashboard fetch outcome (non-OK status,
`success: false`, timeout, network error) is caught, sets a non-null error
string and clears `loading`; and any state with a non-null error renders the
error view whose Retry button re-invokes `fetchInstagramData`. -/
theorem dashboard_failure_sets_error_and_retry (s : DashboardState)
    (cache : CacheService DashboardResult) (nowMs : Nat)
    (outcome : DashboardFetchOutcome)
    (hmiss : (cache.get "dashboard_data" nowMs).1 = none)
    (hfail : outcome.isFailure = true) :
    (∃ msg, (fetchInstagramData s cache nowMs outcome).1.error = some msg) ∧
    (fetchInstagramData s cache nowMs outcome).1.loading = false ∧
    ∀ s' : DashboardState, s'.error ≠ none →
      ∃ msg, renderDashboard s' = DashboardView.errorView msg
        DashboardAction.fetchInstagramDataAction := by
  have hrender : ∀ s' : DashboardState, s'.error ≠ none →
      ∃ msg, renderDashboard s' = DashboardView.errorView msg
        DashboardAction.fetchInstagramDataAction := by
    intro s' h
    cases he : s'.error with
    | none => exact absurd he h
    | some e => exact ⟨e, by simp [renderDashboard, he]⟩
  rcases hget : cache.get "dashboard_data" nowMs with ⟨val, c1⟩
  rw [hget] at hmiss
  simp only at hmiss
  subst hmiss
  cases outcome with
  | ok r =>
    have hr : r.success = false := by
      simpa [DashboardFetchOutcome.isFailure] using hfail
    refine ⟨⟨catchErrorMessage false "Dashboard data fetch failed", ?_⟩, ?_, hrender⟩
    · simp [fetchInstagramData, hget, hr]
    · simp [fetchInstagramData, hget, hr]
  | httpError status statusText =>
    refine ⟨⟨catchErrorMessage false ("HTTP " ++ Nat.repr status ++ ": " ++ statusText),
      ?_⟩, ?_, hrender⟩
    · simp [fetchInstagramData, hget]
    · simp [fetchInstagramData, hget]
  | timeoutError =>
    refine ⟨⟨catchErrorMessage true "The operation was aborted due to timeout", ?_⟩,
      ?_, hrender⟩
    · simp [fetchInstagramData, hget]
    · simp [fetchInstagramData, hget]
  | networkError =>
    refine ⟨⟨catchErrorMessage false "Failed to fetch", ?_⟩, ?_, hrender⟩
    · simp [fetchInstagramData, hget]
    · simp [fetchInstagramData, hget]

/-- Dashboard state at the moment a fetch begins. -/
def exDashState : DashboardState :=
  { loading := true, loadingProgress := 10, error := none, dataLoaded := false }

theorem dashboard_failure_sets_error_and_retry_witness :
    (∃ msg, (fetchInstagramData exDashState (CacheService.empty DashboardResult) 0
        DashboardFetchOutcome.networkError).1.error = some msg) ∧
    (fetchInstagramData exDashState (CacheService.empty DashboardResult) 0
        DashboardFetchOutcome.networkError).1.loading = false ∧
    ∀ s' : DashboardState, s'.error ≠ none →
      ∃ msg, renderDashboard s' = DashboardView.errorView msg
        DashboardAction.fetchInstagramDataAction :=
  dashboard_failure_sets_error_and_retry exDashState (CacheService.empty DashboardResult)
    0 DashboardFetchOutcome.networkError rfl rfl

/-- C8 (counterexample): the claim says no front-end fetch carries a
cancellation signal; but the `/dashboard/data` fetch passes
`AbortSignal.timeout(25000)` in its options. -/
theorem dashboard_fetch_has_timeout_signal :
    ¬ (∀ r ∈ frontendRequests emptyNewPostForm "1" "2" "3", r.timeoutSignalMs = none) := by
  intro h
  exact absurd (h fetchDashboardDataRequest (by simp [frontendRequests])) (by decide)

/-- C8 (amended): every fetch the embedded components construct carries no
abort signal, except the `/dashboard/data` fetch, which sets a 25-second
`AbortSignal.timeout`. -/
theorem only_dashboard_fetch_has_signal (form : NewPostForm)
    (updateId deleteId insightsPostId : String) :
    (∀ r ∈ frontendRequests form updateId deleteId insightsPostId,
      r.timeoutSignalMs = none ∨ r = fetchDashboardDataRequest) ∧
    fetchDashboardDataRequest.timeoutSignalMs = some 25000 := by
  refine ⟨?_, rfl⟩
  intro r hr
  simp only [frontendRequests, List.mem_cons, List.not_mem_nil, or_false] at hr
  rcases hr with h | h | h | h | h | h | h | h | h | h <;> subst h
  · exact Or.inl rfl
  · exact Or.inl rfl
  · exact Or.inl rfl
  · exact Or.inl rfl
  · exact Or.inl rfl
  · exact Or.inr rfl
  · exact Or.inl rfl
  · exact Or.inl rfl
  · exact Or.inl rfl
  · exact Or.inl rfl

theorem only_dashboard_fetch_has_signal_witness :
    (loadScheduledPostsRequest.timeoutSignalMs = none ∨
      loadScheduledPostsRequest = fetchDashboardDataRequest) ∧
    fetchDashboardDataRequest.timeoutSignalMs = some 25000 :=
  ⟨(only_dashboard_fetch_has_signal emptyNewPostForm "1" "2" "3").1
      loadScheduledPostsRequest (by simp [frontendRequests]),
   (only_dashboard_fetch_has_signal emptyNewPostForm "1" "2" "3").2⟩

theorem cacheGet_none_stable {V : Type} (c : CacheService V) (key : String) (nowMs : Nat)
    (h : (c.get key nowMs).1 = none) :
    (((c.get key nowMs).2).get key nowMs).1 = none := by
  unfold CacheService.get at h ⊢
  cases h1 : mapGet c.cache key with
  | none => simp [h1]
  | some v =>
    cases h2 : mapGet c.expiry key with
    | some e =>
      by_cases hgt : nowMs > e
      · simp [h1, h2, hgt, mapGet_mapDelete_self]
      · simp [h1, h2, hgt] at h
    | none => simp [h1, h2] at h

/-- A cache holding the key `"k"` with value `7`, set at time 0 with TTL 5. -/
def exCache : CacheService Nat := (CacheService.empty Nat).set "k" 7 0 5

/-- C9 (counterexample): the claim says a rejecting computation leaves the
cache mappings for the key unchanged; but when the entry for the key has
expired, the initial lookup deletes it, so the mapping differs afterwards. -/
theorem getOrSet_expired_entry_removed_on_error :
    mapGet exCache.cache "k" = some 7 ∧
    (exCache.getOrSet "k" 10 5 (Except.error "boom")).1 = Except.error "boom" ∧
    mapGet (exCache.getOrSet "k" 10 5 (Except.error "boom")).2.1.cache "k" = none := by
  refine ⟨rfl, rfl, rfl⟩

/-- C9 (amended): `getOrSet` skips the computation on a fresh hit and returns
the cached value; on a miss with a rejecting computation the error propagates,
no value is cached for the key (a lookup at the same time still misses),
though an expired entry for the key is removed by the initial lookup. -/
theorem getOrSet_hit_skip_and_error_no_cache {V ε : Type} (c : CacheService V)
    (key : String) (nowMs ttl : Nat) (fnResult : Except ε V) (v : V) (e : ε) :
    ((c.get key nowMs).1 = some v →
      c.getOrSet key nowMs ttl fnResult = (Except.ok v, (c.get key nowMs).2, false)) ∧
    ((c.get key nowMs).1 = none →
      c.getOrSet key nowMs ttl (Except.error e) =
        (Except.error e, (c.get key nowMs).2, true) ∧
      (((c.getOrSet key nowMs ttl (Except.error e)).2.1).get key nowMs).1 = none) := by
  rcases hget : c.get key nowMs with ⟨val, c1⟩
  constructor
  · intro h
    simp only at h
    subst h
    simp [CacheService.getOrSet, hget]
  · intro h
    simp only at h
    subst h
    have hnone : (c.get key nowMs).1 = none := by rw [hget]
    have hstable := cacheGet_none_stable c key nowMs hnone
    rw [hget] at hstable
    simp only at hstable
    constructor
    · simp [CacheService.getOrSet, hget]
    · have hst : (c.getOrSet key nowMs ttl (Except.error e)).2.1 = c1 := by
        simp [CacheService.getOrSet, hget]
      rw [hst]
      exact hstable

theorem getOrSet_hit_skip_and_error_no_cache_witness :
    (exCache.getOrSet "k" 3 5 (Except.error "boom") =
      (Except.ok 7, (exCache.get "k" 3).2, false)) ∧
    (exCache.getOrSet "k" 10 5 (Except.error "boom") =
      (Except.error "boom", (exCache.get "k" 10).2, true)) :=
  ⟨(getOrSet_hit_skip_and_error_no_cache exCache "k" 3 5 (Except.error "boom") 7 "x").1 rfl,
   ((getOrSet_hit_skip_and_error_no_cache exCache "k" 10 5 (Except.error "boom") 7 "boom").2
      rfl).1⟩

theorem mem_futureScheduledSorted (posts : List SchedPost) (nowMs : Nat) (p : SchedPost) :
    p ∈ futureScheduledSorted posts nowMs ↔
      p ∈ posts ∧ p.status = "scheduled" ∧ nowMs < p.scheduled_time := by
  unfold futureScheduledSorted
  rw [List.mem_mergeSort, List.mem_filter, List.mem_filter]
  simp [and_assoc]

theorem pairwise_futureScheduledSorted (posts : List SchedPost) (nowMs : Nat) :
    (futureScheduledSorted posts nowMs).Pairwise
      (fun a b => a.scheduled_time ≤ b.scheduled_time) := by
  unfold futureScheduledSorted
  have h := @List.sorted_mergeSort SchedPost schedTimeLe
    (fun a b c hab hbc => by
      simp only [schedTimeLe, decide_eq_true_eq] at hab hbc ⊢
      omega)
    (fun a b => by
      simp only [schedTimeLe, Bool.or_eq_true, decide_eq_true_eq]
      omega)
    ((posts.filter (fun post => post.status = "scheduled")).filter
      (fun post => nowMs < post.scheduled_time))
  exact h.imp (fun hab => by simpa [schedTimeLe] using hab)

/-- An existing "Next Scheduled" card. -/
def exNextCard : NextPostCard :=
  { platform := "Instagram", content := "c", scheduledForMs := 500
    status := "scheduled", image := none }

/-- C10 (counterexample): the claim says a failing fetch sets `nextPost` to
null; but on a non-OK HTTP response the code skips the update entirely, leaving
the previous non-null card in place. -/
theorem next_post_unchanged_on_http_error :
    fetchNextScheduledPost (some exNextCard) 100 NextFetchOutcome.httpNotOk =
      some exNextCard ∧
    some exNextCard ≠ (none : Option NextPostCard) :=
  ⟨rfl, by simp⟩

/-- C10 (amended): on an OK response the dashboard picks a post with minimal
`scheduled_time` among posts with status `scheduled` and a time strictly after
now, and sets null when none exists; a thrown error sets null; but a non-OK
HTTP response leaves `nextPost` unchanged. -/
theorem next_scheduled_selection (prev : Option NextPostCard) (nowMs : Nat)
    (data : Option (List SchedPost)) :
    (fetchNextScheduledPost prev nowMs NextFetchOutcome.thrown = none) ∧
    (fetchNextScheduledPost prev nowMs NextFetchOutcome.httpNotOk = prev) ∧
    ((∀ p ∈ data.getD [], ¬ (p.status = "scheduled" ∧ nowMs < p.scheduled_time)) →
      fetchNextScheduledPost prev nowMs (NextFetchOutcome.ok data) = none) ∧
    (∀ card, fetchNextScheduledPost prev nowMs (NextFetchOutcome.ok data) = some card →
      ∃ p, p ∈ data.getD [] ∧ p.status = "scheduled" ∧ nowMs < p.scheduled_time ∧
        card = mkNextPost p ∧
        ∀ q ∈ data.getD [], q.status = "scheduled" → nowMs < q.scheduled_time →
          p.scheduled_time ≤ q.scheduled_time) := by
  refine ⟨rfl, rfl, fun hnone => ?_, fun card hcard => ?_⟩
  · have hempty : futureScheduledSorted (data.getD []) nowMs = [] := by
      rw [List.eq_nil_iff_forall_not_mem]
      intro p hp
      rw [mem_futureScheduledSorted] at hp
      exact hnone p hp.1 ⟨hp.2.1, hp.2.2⟩
    simp only [fetchNextScheduledPost]
    rw [hempty]
  · simp only [fetchNextScheduledPost] at hcard
    cases hsort : futureScheduledSorted (data.getD []) nowMs with
    | nil =>
      rw [hsort] at hcard
      exact absurd hcard (by simp)
    | cons next rest =>
      rw [hsort] at hcard
      have hc : card = mkNextPost next := (Option.some.inj hcard).symm
      have hmem : next ∈ futureScheduledSorted (data.getD []) nowMs := by
        rw [hsort]
        exact List.mem_cons_self _ _
      rw [mem_futureScheduledSorted] at hmem
      refine ⟨next, hmem.1, hmem.2.1, hmem.2.2, hc, ?_⟩
      intro q hq hqs hqt
      have hqmem : q ∈ futureScheduledSorted (data.getD []) nowMs := by
        rw [mem_futureScheduledSorted]
        exact ⟨hq, hqs, hqt⟩
      rw [hsort] at hqmem
      rcases List.mem_cons.mp hqmem with hq1 | hq2
      · subst hq1
        exact Nat.le_refl _
      · have hp := pairwise_futureScheduledSorted (data.getD []) nowMs
        rw [hsort] at hp
        exact (List.pairwise_cons.mp hp).1 q hq2

/-- A post scheduled in the future relative to time 100. -/
def exPost2 : SchedPost :=
  { id := "2", content := "soon", platform := "instagram"
    scheduled_time := 200, status := "scheduled", media_urls := [] }

theorem next_scheduled_selection_witness :
    fetchNextScheduledPost none 100 (NextFetchOutcome.ok (some [])) = none ∧
    (∃ p, p ∈ (some [exPost2] : Option (List SchedPost)).getD [] ∧
      p.status = "scheduled" ∧ 100 < p.scheduled_time ∧
      mkNextPost exPost2 = mkNextPost p ∧
      ∀ q ∈ (some [exPost2] : Option (List SchedPost)).getD [], q.status = "scheduled" →
        100 < q.scheduled_time → p.scheduled_time ≤ q.scheduled_time) :=
  ⟨(next_scheduled_selection none 100 (some [])).2.2.1 (by simp),
   (next_scheduled_selection none 100 (some [exPost2])).2.2.2 (mkNextPost exPost2)
     (by simp [fetchNextScheduledPost, futureScheduledSorted, exPost2, List.filter])⟩

end SMM
